import Mathlib

/-!
Shallow embedding of `src/main.js` of the claude-analytics-quickserve-function
repository.  The file holds two variants of an Appwrite serverless handler:
a "messages" variant that proxies caller-supplied chat messages to the Claude
API, and an "analytics" variant that renders a server-side prompt from a
structured analytics payload.  Both are embedded below as pure functions from
a request and an external-world snapshot to a response paired with the list
of external calls (effects) the handler performs, in order.

JavaScript builtins that the code relies on are modelled explicitly:
truthiness of strings and numbers, `||` defaulting, `Array.prototype.slice`,
`String.prototype.substring`, and `Number.prototype.toFixed` (on rationals).
`JSON.parse` of the tenant-settings string is modelled by its outcome (an
inductive), since the parser itself is a platform builtin.
-/

namespace QuickServe

/-- JS truthiness of a possibly-undefined string: `undefined` and `""` are falsy. -/
def strTruthy : Option String → Bool
  | none => false
  | some s => s ≠ ""

/-- JS `a || b` on possibly-undefined strings. -/
def jsOrStr (a b : Option String) : Option String :=
  if strTruthy a then a else b

/-- JS `s || d` for a defined string `s` and a default `d` (`""` is falsy). -/
def strOr (s d : String) : String :=
  if s = "" then d else s

/-- JS `x || d` on a possibly-undefined string with a defined default. -/
def optStrOr (a : Option String) (d : String) : String :=
  match a with
  | none => d
  | some s => if s = "" then d else s

/-- JS truthiness of a possibly-undefined number (`undefined` and `0` are falsy). -/
def numTruthy : Option ℚ → Bool
  | none => false
  | some q => q ≠ 0

/-- Left-pad a digit string with zeros up to length `d`. -/
def padZeros (s : String) (d : Nat) : String :=
  String.mk (List.replicate (d - s.length) '0') ++ s

/-- Model of JS `String.prototype.startsWith` (equivalently the
`String.startsWith` the source relies on), computed on character lists. -/
def strStartsWith (s p : String) : Bool :=
  p.data.isPrefixOf s.data

/-- Model of JS `String.prototype.substring(0, n)`: the first `n` characters. -/
def jsSubstring (s : String) (n : Nat) : String :=
  String.mk (s.data.take n)

/-- Model of JS `Number.prototype.toFixed` on exact rationals: round the
absolute value half-up at `d` decimal places (computed on the reduced
numerator/denominator: `⌊|q|·10^d + 1/2⌋ = (2·|num|·10^d + den) / (2·den)`)
and print with exactly `d` digits after the point (none when `d = 0`). -/
def jsToFixed (q : ℚ) (d : Nat) : String :=
  let n : Nat := (q.num.natAbs * 10 ^ d * 2 + q.den) / (2 * q.den)
  let sign : String := if q.num < 0 ∧ n ≠ 0 then "-" else ""
  if d = 0 then
    sign ++ toString n
  else
    sign ++ toString (n / 10 ^ d) ++ "." ++ padZeros (toString (n % 10 ^ d)) d

/-- Rendering of a possibly-undefined number in a JS template literal
(`undefined` prints as the string `undefined`). -/
def showOptNat : Option Nat → String
  | none => "undefined"
  | some n => toString n

/-! ## CORS handling (`allowedOrigins` / `corsHeaders`, lines 23-36) -/

/-- The fixed allow-list of the source (`allowedOrigins`). -/
def allowedOrigins : List String :=
  ["https://quickserve.io", "http://localhost:5173", "http://localhost:3000"]

structure CorsHeaders where
  allowOrigin : String
  allowMethods : String
  allowHeaders : String
deriving DecidableEq, Repr

/-- Outcome of deserializing the request body: `JSON.parse` threw, or a
(possibly falsy, i.e. `none`) structured body. `ok none` models
`body || {}` kicking in with every field undefined. -/
inductive BodyOutcome (β : Type)
  | parseError
  | ok (b : Option β)
deriving DecidableEq

/-- An inbound HTTP request as the handler sees it: the method, the three
consumed headers, and the deserialization outcome of its body. -/
structure Request (β : Type) where
  method : String
  origin : Option String
  referer : Option String
  userId : Option String
  body : BodyOutcome β
deriving DecidableEq

/-- `req.headers['origin'] || req.headers['referer']` (line 29). -/
def declaredOrigin (r : Request β) : Option String :=
  jsOrStr r.origin r.referer

/-- `allowedOrigins.some(allowed => origin?.startsWith(allowed))` (line 30). -/
def isAllowed (r : Request β) : Bool :=
  allowedOrigins.any fun allowed =>
    match declaredOrigin r with
    | some o => strStartsWith o allowed
    | none => false

/-- The `corsHeaders` object (lines 32-36). -/
def corsHeadersOf (r : Request β) : CorsHeaders where
  allowOrigin :=
    if isAllowed r then (declaredOrigin r).getD "https://quickserve.io"
    else "https://quickserve.io"
  allowMethods := "POST, OPTIONS"
  allowHeaders := "Content-Type, X-Appwrite-Project, X-Appwrite-JWT"

/-! ## Analytics payload data model (`generateAnalyticsPrompt`, lines 466-533)

Numeric JSON fields are modelled as possibly-undefined rationals (`Option ℚ`)
or counts (`Option Nat`); absence models a missing key of the JSON object. -/

structure ProductSale where
  productName : String
  timesOrdered : Option Nat
  totalRevenue : Option ℚ
  averageRating : Option ℚ
  feedbackCount : Option Nat
deriving DecidableEq

structure SessionMetrics where
  total : Option Nat
  avgDuration : Option ℚ
  avgRevenue : Option ℚ
  avgOrdersPerSession : Option ℚ
deriving DecidableEq

/-- `feedbackSummary.ratingDistribution`, keys `5` down to `1`. -/
structure RatingDist where
  star5 : Option Nat
  star4 : Option Nat
  star3 : Option Nat
  star2 : Option Nat
  star1 : Option Nat
deriving DecidableEq

structure FeedbackSummary where
  totalFeedbacks : Option Nat
  hasComments : Option Nat
  averageRating : Option ℚ
  ratingDistribution : Option RatingDist
deriving DecidableEq

structure TopSellerIssues where
  productName : String
  rating : Option ℚ
deriving DecidableEq

/-- The destructured `analyticsData` argument of `generateAnalyticsPrompt`
(line 467); list/object fields default to empty when undefined, which the
plain `List`/structure fields absorb, while `topSellerIssues` keeps its
undefined case because the template tests its truthiness. -/
structure AnalyticsData where
  productSales : List ProductSale
  sessionMetrics : SessionMetrics
  feedbackSummary : FeedbackSummary
  feedbackComments : List String
  topSellerIssues : Option TopSellerIssues
deriving DecidableEq

/-- The body of the `productSales.slice(0, 10).map((p, i) => ...)` arrow
(lines 470-473). -/
def fmtProduct (i : Nat) (p : ProductSale) : String :=
  let rating :=
    if numTruthy p.averageRating then
      ", " ++ jsToFixed (p.averageRating.getD 0) 1 ++ "★ rating (" ++
        toString (p.feedbackCount.getD 0) ++ " reviews)"
    else ""
  toString (i + 1) ++ ". " ++ p.productName ++ ": " ++
    showOptNat p.timesOrdered ++ " orders, $" ++
    jsToFixed (p.totalRevenue.getD 0) 2 ++ " revenue" ++ rating

/-- `productsText` (lines 470-473): cap at the first 10 sales entries. -/
def productsText (d : AnalyticsData) : String :=
  String.intercalate "\n" ((d.productSales.take 10).mapIdx fmtProduct)

/-- `distText` (lines 476-477). -/
def distText (d : AnalyticsData) : String :=
  let dist := d.feedbackSummary.ratingDistribution.getD ⟨none, none, none, none, none⟩
  "5★(" ++ toString (dist.star5.getD 0) ++ ") 4★(" ++ toString (dist.star4.getD 0) ++
    ") 3★(" ++ toString (dist.star3.getD 0) ++ ") 2★(" ++ toString (dist.star2.getD 0) ++
    ") 1★(" ++ toString (dist.star1.getD 0) ++ ")"

/-- The body of the `feedbackComments.slice(0, 20).map((c, i) => ...)` arrow
(line 481): each comment truncated to its first 200 characters. -/
def fmtComment (i : Nat) (c : String) : String :=
  toString (i + 1) ++ ". \"" ++ jsSubstring c 200 ++ "\""

/-- `commentsText` (lines 480-482). -/
def commentsText (d : AnalyticsData) : String :=
  if d.feedbackComments.length > 0 then
    "Recent Customer Comments (sample):\n" ++
      String.intercalate "\n" ((d.feedbackComments.take 20).mapIdx fmtComment)
  else ""

/-- `issuesText` (lines 485-487). -/
def issuesText (d : AnalyticsData) : String :=
  match d.topSellerIssues with
  | some t =>
      "\nNOTE: \"" ++ t.productName ++ "\" is the top seller but has a low " ++
        jsToFixed (t.rating.getD 0) 1 ++
        "★ rating. Analyze feedback comments for this item if mentioned."
  | none => ""

/-- `generateAnalyticsPrompt` (lines 466-533): the fixed template with the
four rendered sections and the formatted session/feedback aggregates. -/
def generateAnalyticsPrompt (data : AnalyticsData) : String :=
  "You are an expert restaurant analytics consultant. Analyze the following restaurant data from the LAST 30 DAYS and provide actionable insights. Focus on:\n\n1. Customer satisfaction patterns from feedback comments\n2. Menu item performance and quality issues\n3. Operational efficiency opportunities\n4. Revenue optimization suggestions\n\nDATA (Last 30 Days):\nTop Products:\n" ++
    strOr (productsText data) "No product data available" ++
    "\n\nSession Metrics:\n- Total Sessions: " ++
    toString (data.sessionMetrics.total.getD 0) ++
    "\n- Avg Duration: " ++
    jsToFixed (data.sessionMetrics.avgDuration.getD 0) 0 ++
    " minutes\n- Avg Revenue per Session: $" ++
    jsToFixed (data.sessionMetrics.avgRevenue.getD 0) 2 ++
    "\n- Avg Orders per Session: " ++
    jsToFixed (data.sessionMetrics.avgOrdersPerSession.getD 0) 1 ++
    "\n\nCustomer Feedback:\n- Total: " ++
    toString (data.feedbackSummary.totalFeedbacks.getD 0) ++
    " (" ++
    toString (data.feedbackSummary.hasComments.getD 0) ++
    " with comments)\n- Average Rating: " ++
    jsToFixed (data.feedbackSummary.averageRating.getD 0) 2 ++
    "★\n- Distribution: " ++
    distText data ++
    "\n\n" ++
    commentsText data ++
    "\n" ++
    issuesText data ++
    "\n\nINSTRUCTIONS:\nProvide 3-5 specific, actionable insights in the following JSON format:\n[\n  \x7b\n    \"severity\": \"critical|warning|info\",\n    \"category\": \"quality|revenue|operations|satisfaction\",\n    \"message\": \"Concise insight message with specific data points and actionable recommendation\",\n    \"impact\": <number 1-10>,\n    \"confidence\": <number 0-1>\n  \x7d\n]\n\nFocus on:\n- Sentiment patterns in feedback comments (recurring themes, common complaints/praise)\n- Non-obvious correlations or patterns in the data\n- Specific product quality issues mentioned in feedback\n- Revenue opportunities or operational inefficiencies\n- Concrete next steps the restaurant can take\n\nReturn ONLY the JSON array, no other text."

/-! ## Request bodies of the two variants -/

structure Message where
  role : String
  content : String
deriving DecidableEq

/-- Destructured body of the messages variant (line 70). `messages` is `none`
when missing or not an array (`!messages || !Array.isArray(messages)`);
`model` / `max_tokens` keep their undefined case so the destructuring
defaults can apply. -/
structure MsgBody where
  restaurantId : Option String
  messages : Option (List Message)
  model : Option String
  max_tokens : Option Nat
deriving DecidableEq

def MsgBody.empty : MsgBody := ⟨none, none, none, none⟩

/-- Destructured body of the analytics variant (line 295). The inbound JSON
may also carry `model`, `max_tokens` and `messages` fields; the destructuring
only reads `restaurantId` and `analyticsData`, so the extra fields are kept
in the model to state what the handler ignores. -/
structure AnBody where
  restaurantId : Option String
  analyticsData : Option AnalyticsData
  model : Option String
  max_tokens : Option Nat
  messages : Option (List Message)
deriving DecidableEq

def AnBody.empty : AnBody := ⟨none, none, none, none, none⟩

/-! ## External-world snapshot -/

/-- Value of `settings.aiAnalyticsEnabled` when the key is present: JS `true`,
JS `false`, or any other JSON value (`=== true` only accepts the first). -/
inductive FlagVal
  | jtrue
  | jfalse
  | jother
deriving DecidableEq

/-- Outcome of the settings block (lines 146-156): `absent` when
`restaurant.settings` is falsy (the code substitutes `{}`); `malformed` when
the `try` block throws (a `JSON.parse` failure, or the property access
throwing because the string parsed to JSON `null`); `parsed flag` when a
value supporting property access was produced, with `flag` the
`aiAnalyticsEnabled` member (or `none` when the key is missing). -/
inductive SettingsField
  | absent
  | malformed
  | parsed (flag : Option FlagVal)
deriving DecidableEq

/-- A tenant (restaurant) document as read from the document store. -/
structure Restaurant where
  ownerId : Option String
  settings : SettingsField
deriving DecidableEq

/-- User document of the messages variant (`databases.getDocument`, line 96). -/
structure UserDocM where
  subscription : Option String
deriving DecidableEq

/-- Auth user of the analytics variant (`usersService.get`, line 326). -/
structure UserDocA where
  labels : Option (List String)
deriving DecidableEq

/-- Upstream response body as far as the handler inspects it: the optional
`error.message` member, and the rest of the JSON carried opaquely. -/
structure UpstreamData where
  errorMessage : Option String
  payload : String
deriving DecidableEq

/-- The upstream `fetch` + `response.json()` pair: either a reply with a
status and a decoded body, or a throw (network or decode failure) with the
error's optional numeric `code` and its `message`, which propagates to the
outer `catch`. -/
inductive UpstreamOutcome
  | reply (status : Nat) (data : UpstreamData)
  | threw (code : Option Nat) (msg : String)
deriving DecidableEq

/-- External state a messages-variant request observes: what the user fetch,
the restaurant fetch, the `CLAUDE_API_KEY` environment read and the upstream
call would each return during this request. `none` on a fetch means the SDK
call threw. -/
structure WorldM where
  userDoc : Option UserDocM
  restaurant : Option Restaurant
  claudeApiKey : Option String
  upstream : UpstreamOutcome
deriving DecidableEq

/-- Outcome of `usersService.get` (line 326): a throw carries the error's
message since the 404 response embeds it (line 332). -/
inductive UserFetch
  | threw (msg : String)
  | got (u : UserDocA)
deriving DecidableEq

/-- External state of an analytics-variant request. -/
structure WorldA where
  userFetch : UserFetch
  restaurant : Option Restaurant
  claudeApiKey : Option String
  upstream : UpstreamOutcome
deriving DecidableEq

/-! ## Responses and effects -/

/-- The JSON bodies the handler can send, one constructor per shape:
`text` for `res.send`, `errorOnly` for `{error}`, `errorMsg` for
`{error, message}`, `errorDetailsStr` for `{error, details: <string>}`,
`errorDetails` for `{error, details: <upstream body>}`, and `upstreamData`
for relaying the upstream body itself. -/
inductive ResBody
  | text (s : String)
  | errorOnly (error : String)
  | errorMsg (error message : String)
  | errorDetailsStr (error details : String)
  | errorDetails (error : String) (details : UpstreamData)
  | upstreamData (d : UpstreamData)
deriving DecidableEq

/-- An HTTP response: body, status, and the headers argument passed to
`res.json` / `res.send` (`none` when the call omits it). -/
structure Response where
  body : ResBody
  status : Nat
  cors : Option CorsHeaders
deriving DecidableEq

/-- The JSON payload of the outbound Claude call. -/
structure ClaudePayload where
  model : String
  max_tokens : Nat
  messages : List Message
deriving DecidableEq

/-- External calls a request performs, in order. -/
inductive Effect
  | fetchUser (id : String)
  | fetchRestaurant (id : String)
  | callClaude (p : ClaudePayload)
deriving DecidableEq

/-- The payload carried by an effect, when it is the Claude call. -/
def effPayload : Effect → Option ClaudePayload
  | Effect.callClaude p => some p
  | Effect.fetchUser _ => none
  | Effect.fetchRestaurant _ => none

/-- The Claude-call payloads occurring in an effect trace. -/
def claudeCalls (es : List Effect) : List ClaudePayload :=
  es.filterMap effPayload

/-- `!subscription || !validSubscriptions.includes(subscription)` negated
(lines 107-110). -/
def validSubscription : Option String → Bool
  | none => false
  | some s => s ≠ "" && ["starter", "growth", "pro"].contains s

/-- Subscription resolution from auth labels (lines 336-340). -/
def subscriptionOf (labels : List String) : Option String :=
  if labels.contains "planstarter" then some "starter"
  else if labels.contains "plangrowth" then some "growth"
  else if labels.contains "planpro" then some "pro"
  else none

/-- `apiKey && apiKey.startsWith('sk-ant-')` (line 169). -/
def validApiKey : Option String → Bool
  | none => false
  | some k => k ≠ "" && strStartsWith k "sk-ant-"

/-- The settings block's result: `none` when the `try` throws (status 500),
`some enabled` otherwise, with `enabled` = `settings.aiAnalyticsEnabled === true`. -/
def aiFlagOf : SettingsField → Option Bool
  | SettingsField.malformed => none
  | SettingsField.absent => some false
  | SettingsField.parsed f => some (f = some FlagVal.jtrue)

/-! ## The upstream call and relay segment

Both variants end in the same segment: the `fetch` to the Claude API, the
2xx test, the error wrapping (lines 180-207 and 415-442), and the outer
`catch` that converts throws — re-mapping an error whose `code` is 404 to a
tenant-not-found response — (lines 209-224 and 444-459). It is factored out
here, abstracted over the CORS headers, the payload and the effects already
performed. -/

/-- The upstream call plus relay/outer-catch segment. Note that the non-2xx
relay and both `catch` responses pass no headers argument. -/
def relayOutcome (cors : CorsHeaders) (payload : ClaudePayload) (pre : List Effect)
    (up : UpstreamOutcome) : Response × List Effect :=
  match up with
  | UpstreamOutcome.threw code msg =>
      if code = some 404 then
        (⟨ResBody.errorMsg "Restaurant not found" "Invalid restaurant ID", 404, none⟩,
          pre ++ [Effect.callClaude payload])
      else
        (⟨ResBody.errorMsg "Internal server error" msg, 500, none⟩,
          pre ++ [Effect.callClaude payload])
  | UpstreamOutcome.reply status data =>
      if 200 ≤ status ∧ status < 300 then
        (⟨ResBody.upstreamData data, 200, some cors⟩, pre ++ [Effect.callClaude payload])
      else
        (⟨ResBody.errorDetails (optStrOr data.errorMessage "Claude API request failed") data,
          status, none⟩, pre ++ [Effect.callClaude payload])

/-- Does the upstream interaction count as a failure (a throw, or a non-2xx
reply — the negation of `response.ok`)? -/
def upstreamFailed : UpstreamOutcome → Bool
  | UpstreamOutcome.threw _ _ => true
  | UpstreamOutcome.reply s _ => if 200 ≤ s ∧ s < 300 then false else true

/-! ## The messages-variant handler (lines 21-225) -/

/-- The messages-variant handler body, abstracted over the `corsHeaders`
constant the source computes once at entry (lines 32-36): the full decision
sequence, returning the response and the ordered external calls made. -/
def mCore (method : String) (userId : Option String) (body : BodyOutcome MsgBody)
    (w : WorldM) (cors : CorsHeaders) : Response × List Effect :=
  if method = "OPTIONS" then
    (⟨ResBody.text "", 200, some cors⟩, [])
  else if method ≠ "POST" then
    (⟨ResBody.errorOnly "Method not allowed", 405, some cors⟩, [])
  else if ¬ strTruthy userId then
    (⟨ResBody.errorOnly "Authentication required", 401, some cors⟩, [])
  else
    match body with
    | BodyOutcome.parseError =>
        (⟨ResBody.errorOnly "Invalid JSON in request body", 400, some cors⟩, [])
    | BodyOutcome.ok ob =>
        if ¬ strTruthy (ob.getD MsgBody.empty).restaurantId then
          (⟨ResBody.errorOnly "restaurantId is required", 400, some cors⟩, [])
        else
          match (ob.getD MsgBody.empty).messages with
          | none =>
              (⟨ResBody.errorOnly "messages array is required", 400, some cors⟩, [])
          | some msgs =>
              if msgs.length = 0 then
                (⟨ResBody.errorOnly "messages array is required", 400, some cors⟩, [])
              else
                match w.userDoc with
                | none =>
                    (⟨ResBody.errorOnly "User not found", 404, some cors⟩,
                      [Effect.fetchUser (userId.getD "")])
                | some udoc =>
                    if ¬ validSubscription udoc.subscription then
                      (⟨ResBody.errorMsg "AI Analytics requires an active subscription"
                          "Please subscribe to a plan (Starter, Growth, or Pro) to use AI-powered analytics",
                        403, some cors⟩, [Effect.fetchUser (userId.getD "")])
                    else
                      match w.restaurant with
                      | none =>
                          (⟨ResBody.errorOnly "Restaurant not found", 404, some cors⟩,
                            [Effect.fetchUser (userId.getD ""), Effect.fetchRestaurant ((ob.getD MsgBody.empty).restaurantId.getD "")])
                      | some rest =>
                          if rest.ownerId ≠ some (userId.getD "") then
                            (⟨ResBody.errorMsg "Access denied"
                                "You do not have permission to access this restaurant's AI analytics",
                              403, some cors⟩,
                              [Effect.fetchUser (userId.getD ""), Effect.fetchRestaurant ((ob.getD MsgBody.empty).restaurantId.getD "")])
                          else
                            match aiFlagOf rest.settings with
                            | none =>
                                (⟨ResBody.errorOnly "Invalid restaurant settings format", 500,
                                    some cors⟩,
                                  [Effect.fetchUser (userId.getD ""), Effect.fetchRestaurant ((ob.getD MsgBody.empty).restaurantId.getD "")])
                            | some enabled =>
                                if ¬ enabled then
                                  (⟨ResBody.errorMsg "AI Analytics not enabled"
                                      "Please enable AI Analytics in Settings → Analytics AI",
                                    400, some cors⟩,
                                    [Effect.fetchUser (userId.getD ""), Effect.fetchRestaurant ((ob.getD MsgBody.empty).restaurantId.getD "")])
                                else if ¬ validApiKey w.claudeApiKey then
                                  (⟨ResBody.errorMsg "Service configuration error"
                                      "AI Analytics service is not properly configured. Please contact support.",
                                    500, some cors⟩,
                                    [Effect.fetchUser (userId.getD ""), Effect.fetchRestaurant ((ob.getD MsgBody.empty).restaurantId.getD "")])
                                else
                                  relayOutcome cors
                                    ⟨(ob.getD MsgBody.empty).model.getD "claude-3-5-sonnet-20241022",
                                      (ob.getD MsgBody.empty).max_tokens.getD 2000, msgs⟩
                                    [Effect.fetchUser (userId.getD ""), Effect.fetchRestaurant ((ob.getD MsgBody.empty).restaurantId.getD "")]
                                    w.upstream

/-- The messages-variant request handler. -/
def mHandler (r : Request MsgBody) (w : WorldM) : Response × List Effect :=
  mCore r.method r.userId r.body w (corsHeadersOf r)

/-! ## The analytics-variant handler (lines 246-460) -/

/-- The analytics-variant handler body, abstracted over the `corsHeaders`
constant computed at entry. -/
def aCore (method : String) (userId : Option String) (body : BodyOutcome AnBody)
    (w : WorldA) (cors : CorsHeaders) : Response × List Effect :=
  if method = "OPTIONS" then
    (⟨ResBody.text "", 200, some cors⟩, [])
  else if method ≠ "POST" then
    (⟨ResBody.errorOnly "Method not allowed", 405, some cors⟩, [])
  else if ¬ strTruthy userId then
    (⟨ResBody.errorOnly "Authentication required", 401, some cors⟩, [])
  else
    match body with
    | BodyOutcome.parseError =>
        (⟨ResBody.errorOnly "Invalid JSON in request body", 400, some cors⟩, [])
    | BodyOutcome.ok ob =>
        if ¬ strTruthy (ob.getD AnBody.empty).restaurantId then
          (⟨ResBody.errorOnly "restaurantId is required", 400, some cors⟩, [])
        else
          match (ob.getD AnBody.empty).analyticsData with
          | none =>
              (⟨ResBody.errorOnly "analyticsData is required", 400, some cors⟩, [])
          | some ad =>
              match w.userFetch with
              | UserFetch.threw msg =>
                  (⟨ResBody.errorDetailsStr "User not found" msg, 404, some cors⟩,
                    [Effect.fetchUser (userId.getD "")])
              | UserFetch.got udoc =>
                  match subscriptionOf (udoc.labels.getD []) with
                  | none =>
                      (⟨ResBody.errorMsg "AI Analytics requires an active subscription"
                          "Please subscribe to a plan (Starter, Growth, or Pro) to use AI-powered analytics",
                        403, some cors⟩, [Effect.fetchUser (userId.getD "")])
                  | some _ =>
                      match w.restaurant with
                      | none =>
                          (⟨ResBody.errorOnly "Restaurant not found", 404, some cors⟩,
                            [Effect.fetchUser (userId.getD ""), Effect.fetchRestaurant ((ob.getD AnBody.empty).restaurantId.getD "")])
                      | some rest =>
                          if rest.ownerId ≠ some (userId.getD "") then
                            (⟨ResBody.errorMsg "Access denied"
                                "You do not have permission to access this restaurant's AI analytics",
                              403, some cors⟩,
                              [Effect.fetchUser (userId.getD ""), Effect.fetchRestaurant ((ob.getD AnBody.empty).restaurantId.getD "")])
                          else
                            match aiFlagOf rest.settings with
                            | none =>
                                (⟨ResBody.errorOnly "Invalid restaurant settings format", 500,
                                    some cors⟩,
                                  [Effect.fetchUser (userId.getD ""), Effect.fetchRestaurant ((ob.getD AnBody.empty).restaurantId.getD "")])
                            | some enabled =>
                                if ¬ enabled then
                                  (⟨ResBody.errorMsg "AI Analytics not enabled"
                                      "Please enable AI Analytics in Settings → Analytics AI",
                                    400, some cors⟩,
                                    [Effect.fetchUser (userId.getD ""), Effect.fetchRestaurant ((ob.getD AnBody.empty).restaurantId.getD "")])
                                else if ¬ validApiKey w.claudeApiKey then
                                  (⟨ResBody.errorMsg "Service configuration error"
                                      "AI Analytics service is not properly configured. Please contact support.",
                                    500, some cors⟩,
                                    [Effect.fetchUser (userId.getD ""), Effect.fetchRestaurant ((ob.getD AnBody.empty).restaurantId.getD "")])
                                else
                                  relayOutcome cors
                                    ⟨"claude-sonnet-4-20250514", 2000,
                                      [⟨"user", generateAnalyticsPrompt ad⟩]⟩
                                    [Effect.fetchUser (userId.getD ""), Effect.fetchRestaurant ((ob.getD AnBody.empty).restaurantId.getD "")]
                                    w.upstream

/-- The analytics-variant request handler. -/
def aHandler (r : Request AnBody) (w : WorldA) : Response × List Effect :=
  aCore r.method r.userId r.body w (corsHeadersOf r)

/-! ## Structural lemmas about the handlers -/

/-- Replace the CORS headers of an outcome (when any were sent) by `c`. -/
def substCors (c : CorsHeaders) (out : Response × List Effect) : Response × List Effect :=
  (⟨out.1.body, out.1.status, out.1.cors.map fun _ => c⟩, out.2)

theorem relayOutcome_calls (c : CorsHeaders) (p : ClaudePayload) (pre : List Effect)
    (up : UpstreamOutcome) :
    claudeCalls (relayOutcome c p pre up).2 = claudeCalls pre ++ [p] := by
  cases up with
  | threw code msg =>
      by_cases h : code = some 404 <;>
        simp [relayOutcome, h, claudeCalls, List.filterMap_append, effPayload]
  | reply s d =>
      by_cases h : 200 ≤ s ∧ s < 300 <;>
        simp [relayOutcome, h, claudeCalls, List.filterMap_append, effPayload]

theorem relayOutcome_cors_none_iff (c : CorsHeaders) (p : ClaudePayload) (pre : List Effect)
    (up : UpstreamOutcome) :
    (relayOutcome c p pre up).1.cors = none ↔ upstreamFailed up = true := by
  cases up with
  | threw code msg =>
      by_cases h : code = some 404 <;> simp [relayOutcome, upstreamFailed, h]
  | reply s d =>
      by_cases h : 200 ≤ s ∧ s < 300 <;> simp [relayOutcome, upstreamFailed, h]

theorem relayOutcome_reply_fail (c : CorsHeaders) (p : ClaudePayload) (pre : List Effect)
    (s : Nat) (d : UpstreamData) (h : ¬(200 ≤ s ∧ s < 300)) :
    relayOutcome c p pre (UpstreamOutcome.reply s d) =
      (⟨ResBody.errorDetails (optStrOr d.errorMessage "Claude API request failed") d, s, none⟩,
        pre ++ [Effect.callClaude p]) := by
  simp [relayOutcome, h]

theorem relayOutcome_substCors (c₁ c₂ : CorsHeaders) (p : ClaudePayload) (pre : List Effect)
    (up : UpstreamOutcome) :
    relayOutcome c₂ p pre up = substCors c₂ (relayOutcome c₁ p pre up) := by
  cases up with
  | threw code msg => by_cases h : code = some 404 <;> simp [relayOutcome, substCors, h]
  | reply s d => by_cases h : 200 ≤ s ∧ s < 300 <;> simp [relayOutcome, substCors, h]

/-- Every run of the messages-variant core either performs no upstream call
and answers with the CORS headers attached, or ends in the upstream relay
segment with only the two fetches preceding the call. -/
theorem mCore_shape (m : String) (u : Option String) (b : BodyOutcome MsgBody)
    (w : WorldM) (c : CorsHeaders) :
    ((mCore m u b w c).1.cors = some c ∧ claudeCalls (mCore m u b w c).2 = []) ∨
    ∃ p pre, mCore m u b w c = relayOutcome c p pre w.upstream ∧ claudeCalls pre = [] := by
  have key : ∀ out : Response × List Effect, mCore m u b w c = out →
      ((out.1.cors = some c ∧ claudeCalls out.2 = []) ∨
        ∃ p pre, out = relayOutcome c p pre w.upstream ∧ claudeCalls pre = []) := by
    intro out hout
    unfold mCore at hout
    repeat' split at hout
    all_goals subst hout
    all_goals first
      | exact Or.inl ⟨rfl, rfl⟩
      | exact Or.inr ⟨_, _, rfl, rfl⟩
  exact key _ rfl

/-- Every run of the analytics-variant core either performs no upstream call
and answers with the CORS headers attached, or ends in the relay segment
with the fixed server-side payload built from the inbound `analyticsData`. -/
theorem aCore_shape (m : String) (u : Option String) (b : BodyOutcome AnBody)
    (w : WorldA) (c : CorsHeaders) :
    ((aCore m u b w c).1.cors = some c ∧ claudeCalls (aCore m u b w c).2 = []) ∨
    ∃ ob ad pre, b = BodyOutcome.ok ob ∧ (ob.getD AnBody.empty).analyticsData = some ad ∧
      aCore m u b w c =
        relayOutcome c ⟨"claude-sonnet-4-20250514", 2000,
          [⟨"user", generateAnalyticsPrompt ad⟩]⟩ pre w.upstream ∧
      claudeCalls pre = [] := by
  have key : ∀ out : Response × List Effect, aCore m u b w c = out →
      ((out.1.cors = some c ∧ claudeCalls out.2 = []) ∨
        ∃ ob ad pre, b = BodyOutcome.ok ob ∧ (ob.getD AnBody.empty).analyticsData = some ad ∧
          out = relayOutcome c ⟨"claude-sonnet-4-20250514", 2000,
            [⟨"user", generateAnalyticsPrompt ad⟩]⟩ pre w.upstream ∧
          claudeCalls pre = []) := by
    intro out hout
    unfold aCore at hout
    repeat' split at hout
    all_goals subst hout
    all_goals first
      | exact Or.inl ⟨rfl, rfl⟩
      | exact Or.inr ⟨_, _, _, rfl, by assumption, rfl, rfl⟩
  exact key _ rfl

/-- The core's response status, body and effect trace do not depend on the
CORS-headers value; only the attached headers do. -/
theorem mCore_substCors (m : String) (u : Option String) (b : BodyOutcome MsgBody)
    (w : WorldM) (c₁ c₂ : CorsHeaders) :
    mCore m u b w c₂ = substCors c₂ (mCore m u b w c₁) := by
  have key : ∀ out : Response × List Effect, mCore m u b w c₁ = out →
      mCore m u b w c₂ = substCors c₂ out := by
    intro out hout
    unfold mCore at hout ⊢
    repeat' split at hout
    all_goals subst hout
    all_goals simp_all [substCors]
    all_goals exact relayOutcome_substCors c₁ c₂ _ _ _
  exact key _ rfl

/-- `aCore` analogue of `mCore_substCors`. -/
theorem aCore_substCors (m : String) (u : Option String) (b : BodyOutcome AnBody)
    (w : WorldA) (c₁ c₂ : CorsHeaders) :
    aCore m u b w c₂ = substCors c₂ (aCore m u b w c₁) := by
  have key : ∀ out : Response × List Effect, aCore m u b w c₁ = out →
      aCore m u b w c₂ = substCors c₂ out := by
    intro out hout
    unfold aCore at hout ⊢
    repeat' split at hout
    all_goals subst hout
    all_goals simp_all [substCors]
    all_goals exact relayOutcome_substCors c₁ c₂ _ _ _
  exact key _ rfl

/-- `mCore_shape` restated on the packaged handler. -/
theorem mHandler_shape (r : Request MsgBody) (w : WorldM) :
    ((mHandler r w).1.cors = some (corsHeadersOf r) ∧ claudeCalls (mHandler r w).2 = []) ∨
    ∃ p pre, mHandler r w = relayOutcome (corsHeadersOf r) p pre w.upstream ∧
      claudeCalls pre = [] :=
  mCore_shape r.method r.userId r.body w (corsHeadersOf r)

/-- `aCore_shape` restated on the packaged handler. -/
theorem aHandler_shape (r : Request AnBody) (w : WorldA) :
    ((aHandler r w).1.cors = some (corsHeadersOf r) ∧ claudeCalls (aHandler r w).2 = []) ∨
    ∃ ob ad pre, r.body = BodyOutcome.ok ob ∧ (ob.getD AnBody.empty).analyticsData = some ad ∧
      aHandler r w =
        relayOutcome (corsHeadersOf r) ⟨"claude-sonnet-4-20250514", 2000,
          [⟨"user", generateAnalyticsPrompt ad⟩]⟩ pre w.upstream ∧
      claudeCalls pre = [] :=
  aCore_shape r.method r.userId r.body w (corsHeadersOf r)

/-! ## Concrete sample inputs used by witnesses and counterexamples -/

/-- A well-formed messages-variant request from the production origin. -/
def rM0 : Request MsgBody :=
  ⟨"POST", some "https://quickserve.io", none, some "user1",
    BodyOutcome.ok (some ⟨some "rest1", some [⟨"user", "Hello"⟩], none, none⟩)⟩

/-- A world where every check passes and the upstream replies 200. -/
def wM0 : WorldM :=
  ⟨some ⟨some "pro"⟩, some ⟨some "user1", SettingsField.parsed (some FlagVal.jtrue)⟩,
    some "sk-ant-key", UpstreamOutcome.reply 200 ⟨none, "ok-body"⟩⟩

/-- Same world but the upstream replies 529 with an error body. -/
def wM529 : WorldM :=
  ⟨some ⟨some "pro"⟩, some ⟨some "user1", SettingsField.parsed (some FlagVal.jtrue)⟩,
    some "sk-ant-key", UpstreamOutcome.reply 529 ⟨some "Overloaded", "errpayload"⟩⟩

/-- `rM0` with an origin outside the allow-list. -/
def rMEvil : Request MsgBody :=
  ⟨"POST", some "https://evil.example", none, some "user1",
    BodyOutcome.ok (some ⟨some "rest1", some [⟨"user", "Hello"⟩], none, none⟩)⟩

/-- An OPTIONS request carrying no identity header. -/
def rMOptionsNoAuth : Request MsgBody :=
  ⟨"OPTIONS", some "https://quickserve.io", none, none, BodyOutcome.ok none⟩

/-- A small analytics payload exercising every section of the template. -/
def dA0 : AnalyticsData :=
  ⟨[⟨"Burger", some 42, some (mkRat 12345 100), some (mkRat 47 10), some 12⟩],
    ⟨some 100, some (mkRat 25 2), some (mkRat 301 10), some (mkRat 21 10)⟩,
    ⟨some 50, some 20, some (mkRat 43 10), some ⟨some 30, some 10, some 5, some 3, some 2⟩⟩,
    ["Great food!", "Slow service"],
    some ⟨"Burger", some (mkRat 28 10)⟩⟩

/-- A well-formed analytics-variant request carrying `dA0`. -/
def rA0 : Request AnBody :=
  ⟨"POST", some "https://quickserve.io", none, some "user1",
    BodyOutcome.ok (some ⟨some "rest1", some dA0, none, none, none⟩)⟩

/-- An analytics world where every check passes and the upstream replies 200. -/
def wA0 : WorldA :=
  ⟨UserFetch.got ⟨some ["planpro"]⟩,
    some ⟨some "user1", SettingsField.parsed (some FlagVal.jtrue)⟩,
    some "sk-ant-key", UpstreamOutcome.reply 200 ⟨none, "ok"⟩⟩

/-! ## Claims -/

/-- C8: a request with HTTP method OPTIONS gets status 200 with an empty
body and triggers no external calls (so no identity, subscription, ownership
or feature-flag check runs), in both handler variants. -/
theorem c8_options_preflight (o ref uid : Option String) (bm : BodyOutcome MsgBody)
    (ba : BodyOutcome AnBody) (wm : WorldM) (wa : WorldA) :
    (mHandler ⟨"OPTIONS", o, ref, uid, bm⟩ wm).1.status = 200 ∧
    (mHandler ⟨"OPTIONS", o, ref, uid, bm⟩ wm).1.body = ResBody.text "" ∧
    (mHandler ⟨"OPTIONS", o, ref, uid, bm⟩ wm).2 = [] ∧
    (aHandler ⟨"OPTIONS", o, ref, uid, ba⟩ wa).1.status = 200 ∧
    (aHandler ⟨"OPTIONS", o, ref, uid, ba⟩ wa).1.body = ResBody.text "" ∧
    (aHandler ⟨"OPTIONS", o, ref, uid, ba⟩ wa).2 = [] := by
  simp [mHandler, aHandler, mCore, aCore]

/-- C6 counterexample: an OPTIONS request lacking the identity header is
answered 200, not 401, so the claim fails when quantified over every
request. -/
theorem c6_counterexample :
    (mHandler rMOptionsNoAuth wM0).1.status = 200 ∧
    (mHandler rMOptionsNoAuth wM0).1.status ≠ 401 := by
  constructor <;> decide

/-- C6 (amended): a POST request lacking the identity header is answered 401
with error `Authentication required`, and no external call is made before
returning, in both handler variants. -/
theorem c6_missing_identity (o ref : Option String) (bm : BodyOutcome MsgBody)
    (ba : BodyOutcome AnBody) (wm : WorldM) (wa : WorldA) :
    (mHandler ⟨"POST", o, ref, none, bm⟩ wm).1.status = 401 ∧
    (mHandler ⟨"POST", o, ref, none, bm⟩ wm).1.body = ResBody.errorOnly "Authentication required" ∧
    (mHandler ⟨"POST", o, ref, none, bm⟩ wm).2 = [] ∧
    (aHandler ⟨"POST", o, ref, none, ba⟩ wa).1.status = 401 ∧
    (aHandler ⟨"POST", o, ref, none, ba⟩ wa).1.body = ResBody.errorOnly "Authentication required" ∧
    (aHandler ⟨"POST", o, ref, none, ba⟩ wa).2 = [] := by
  simp [mHandler, aHandler, mCore, aCore, strTruthy]

/-- C7: the handlers are deterministic functions of the request and the
external-world snapshot: two requests with identical inputs and unchanged
external state yield identical analytics prompts, identical upstream
payloads, and identical responses. -/
theorem c7_determinism (d₁ d₂ : AnalyticsData) (ra₁ ra₂ : Request AnBody)
    (wa₁ wa₂ : WorldA) (rm₁ rm₂ : Request MsgBody) (wm₁ wm₂ : WorldM)
    (hd : d₁ = d₂) (hra : ra₁ = ra₂) (hwa : wa₁ = wa₂) (hrm : rm₁ = rm₂)
    (hwm : wm₁ = wm₂) :
    generateAnalyticsPrompt d₁ = generateAnalyticsPrompt d₂ ∧
    claudeCalls (aHandler ra₁ wa₁).2 = claudeCalls (aHandler ra₂ wa₂).2 ∧
    (aHandler ra₁ wa₁).1 = (aHandler ra₂ wa₂).1 ∧
    claudeCalls (mHandler rm₁ wm₁).2 = claudeCalls (mHandler rm₂ wm₂).2 ∧
    (mHandler rm₁ wm₁).1 = (mHandler rm₂ wm₂).1 := by
  subst hd; subst hra; subst hwa; subst hrm; subst hwm
  exact ⟨rfl, rfl, rfl, rfl, rfl⟩

/-- C7 witness at concrete equal inputs. -/
theorem c7_determinism_witness :
    generateAnalyticsPrompt dA0 = generateAnalyticsPrompt dA0 ∧
    claudeCalls (aHandler rA0 wA0).2 = claudeCalls (aHandler rA0 wA0).2 ∧
    (aHandler rA0 wA0).1 = (aHandler rA0 wA0).1 ∧
    claudeCalls (mHandler rM0 wM0).2 = claudeCalls (mHandler rM0 wM0).2 ∧
    (mHandler rM0 wM0).1 = (mHandler rM0 wM0).1 :=
  c7_determinism dA0 dA0 rA0 rA0 wA0 wA0 rM0 rM0 wM0 wM0 rfl rfl rfl rfl rfl

/-- C4: when the caller identity is present, the body is well-formed, the
user lookup succeeds, and the fetched restaurant's owner differs from the
caller, the response status is 403 — whatever the subscription value (both
the invalid-subscription branch and the ownership branch answer 403), in
both handler variants. -/
theorem c4_ownership_mismatch (o ref : Option String) (u rid : String)
    (msgs : List Message) (mo : Option String) (mt : Option Nat)
    (sub : Option String) (labels : Option (List String)) (ad : AnalyticsData)
    (owner : Option String) (st : SettingsField) (key : Option String)
    (up : UpstreamOutcome) (hu : u ≠ "") (hrid : rid ≠ "") (hm : msgs ≠ [])
    (howner : owner ≠ some u) :
    (mHandler ⟨"POST", o, ref, some u, BodyOutcome.ok (some ⟨some rid, some msgs, mo, mt⟩)⟩
        ⟨some ⟨sub⟩, some ⟨owner, st⟩, key, up⟩).1.status = 403 ∧
    (aHandler ⟨"POST", o, ref, some u, BodyOutcome.ok (some ⟨some rid, some ad, mo, mt, some msgs⟩)⟩
        ⟨UserFetch.got ⟨labels⟩, some ⟨owner, st⟩, key, up⟩).1.status = 403 := by
  constructor
  · by_cases hs : validSubscription sub = true <;>
      simp [mHandler, mCore, strTruthy, hu, hrid, hm, hs, howner, List.length_eq_zero]
  · rcases hl : subscriptionOf (labels.getD []) with _ | s <;>
      simp [aHandler, aCore, strTruthy, hu, hrid, hl, howner]

/-- C4 witness: concrete mismatched owner with a valid subscription. -/
theorem c4_ownership_mismatch_witness :
    (mHandler ⟨"POST", some "https://quickserve.io", none, some "user1",
        BodyOutcome.ok (some ⟨some "rest1", some [⟨"user", "Hello"⟩], none, none⟩)⟩
        ⟨some ⟨some "pro"⟩, some ⟨some "someoneElse", SettingsField.parsed (some FlagVal.jtrue)⟩,
          some "sk-ant-key", UpstreamOutcome.reply 200 ⟨none, "ok"⟩⟩).1.status = 403 ∧
    (aHandler ⟨"POST", some "https://quickserve.io", none, some "user1",
        BodyOutcome.ok (some ⟨some "rest1", some dA0, none, none, none⟩)⟩
        ⟨UserFetch.got ⟨some ["planpro"]⟩,
          some ⟨some "someoneElse", SettingsField.parsed (some FlagVal.jtrue)⟩,
          some "sk-ant-key", UpstreamOutcome.reply 200 ⟨none, "ok"⟩⟩).1.status = 403 :=
  c4_ownership_mismatch (some "https://quickserve.io") none "user1" "rest1"
    [⟨"user", "Hello"⟩] none none (some "pro") (some ["planpro"]) dA0
    (some "someoneElse") (SettingsField.parsed (some FlagVal.jtrue))
    (some "sk-ant-key") (UpstreamOutcome.reply 200 ⟨none, "ok"⟩)
    (by decide) (by decide) (by decide) (by decide)

/-- C3: with valid ownership and subscription, a settings string that parses
but whose `aiAnalyticsEnabled` is not exactly `true` yields 400 with error
`AI Analytics not enabled`, and a settings string whose processing throws
yields 500, in both handler variants. -/
theorem c3_feature_flag_gate (o ref : Option String) (u rid : String)
    (msgs : List Message) (mo : Option String) (mt : Option Nat)
    (sub : Option String) (labels : Option (List String)) (ad : AnalyticsData)
    (flag : Option FlagVal) (key : Option String) (up : UpstreamOutcome)
    (hu : u ≠ "") (hrid : rid ≠ "") (hm : msgs ≠ [])
    (hsub : validSubscription sub = true)
    (hlab : (subscriptionOf (labels.getD [])).isSome = true)
    (hflag : flag ≠ some FlagVal.jtrue) :
    ((mHandler ⟨"POST", o, ref, some u, BodyOutcome.ok (some ⟨some rid, some msgs, mo, mt⟩)⟩
        ⟨some ⟨sub⟩, some ⟨some u, SettingsField.parsed flag⟩, key, up⟩).1.status = 400 ∧
      (mHandler ⟨"POST", o, ref, some u, BodyOutcome.ok (some ⟨some rid, some msgs, mo, mt⟩)⟩
        ⟨some ⟨sub⟩, some ⟨some u, SettingsField.parsed flag⟩, key, up⟩).1.body =
        ResBody.errorMsg "AI Analytics not enabled"
          "Please enable AI Analytics in Settings → Analytics AI") ∧
    (mHandler ⟨"POST", o, ref, some u, BodyOutcome.ok (some ⟨some rid, some msgs, mo, mt⟩)⟩
        ⟨some ⟨sub⟩, some ⟨some u, SettingsField.malformed⟩, key, up⟩).1.status = 500 ∧
    ((aHandler ⟨"POST", o, ref, some u, BodyOutcome.ok (some ⟨some rid, some ad, mo, mt, some msgs⟩)⟩
        ⟨UserFetch.got ⟨labels⟩, some ⟨some u, SettingsField.parsed flag⟩, key, up⟩).1.status = 400 ∧
      (aHandler ⟨"POST", o, ref, some u, BodyOutcome.ok (some ⟨some rid, some ad, mo, mt, some msgs⟩)⟩
        ⟨UserFetch.got ⟨labels⟩, some ⟨some u, SettingsField.parsed flag⟩, key, up⟩).1.body =
        ResBody.errorMsg "AI Analytics not enabled"
          "Please enable AI Analytics in Settings → Analytics AI") ∧
    (aHandler ⟨"POST", o, ref, some u, BodyOutcome.ok (some ⟨some rid, some ad, mo, mt, some msgs⟩)⟩
        ⟨UserFetch.got ⟨labels⟩, some ⟨some u, SettingsField.malformed⟩, key, up⟩).1.status = 500 := by
  obtain ⟨s, hs⟩ := Option.isSome_iff_exists.mp hlab
  simp [mHandler, aHandler, mCore, aCore, strTruthy, hu, hrid, hm, hsub, hs, hflag, aiFlagOf]

/-- C3 witness: settings parse with the flag set to JS `false`. -/
theorem c3_feature_flag_gate_witness :
    ((mHandler ⟨"POST", some "https://quickserve.io", none, some "user1",
        BodyOutcome.ok (some ⟨some "rest1", some [⟨"user", "Hello"⟩], none, none⟩)⟩
        ⟨some ⟨some "pro"⟩, some ⟨some "user1", SettingsField.parsed (some FlagVal.jfalse)⟩,
          some "sk-ant-key", UpstreamOutcome.reply 200 ⟨none, "ok"⟩⟩).1.status = 400 ∧
      (mHandler ⟨"POST", some "https://quickserve.io", none, some "user1",
        BodyOutcome.ok (some ⟨some "rest1", some [⟨"user", "Hello"⟩], none, none⟩)⟩
        ⟨some ⟨some "pro"⟩, some ⟨some "user1", SettingsField.parsed (some FlagVal.jfalse)⟩,
          some "sk-ant-key", UpstreamOutcome.reply 200 ⟨none, "ok"⟩⟩).1.body =
        ResBody.errorMsg "AI Analytics not enabled"
          "Please enable AI Analytics in Settings → Analytics AI") ∧
    (mHandler ⟨"POST", some "https://quickserve.io", none, some "user1",
        BodyOutcome.ok (some ⟨some "rest1", some [⟨"user", "Hello"⟩], none, none⟩)⟩
        ⟨some ⟨some "pro"⟩, some ⟨some "user1", SettingsField.malformed⟩,
          some "sk-ant-key", UpstreamOutcome.reply 200 ⟨none, "ok"⟩⟩).1.status = 500 ∧
    ((aHandler ⟨"POST", some "https://quickserve.io", none, some "user1",
        BodyOutcome.ok (some ⟨some "rest1", some dA0, none, none, some [⟨"user", "Hello"⟩]⟩)⟩
        ⟨UserFetch.got ⟨some ["planpro"]⟩,
          some ⟨some "user1", SettingsField.parsed (some FlagVal.jfalse)⟩,
          some "sk-ant-key", UpstreamOutcome.reply 200 ⟨none, "ok"⟩⟩).1.status = 400 ∧
      (aHandler ⟨"POST", some "https://quickserve.io", none, some "user1",
        BodyOutcome.ok (some ⟨some "rest1", some dA0, none, none, some [⟨"user", "Hello"⟩]⟩)⟩
        ⟨UserFetch.got ⟨some ["planpro"]⟩,
          some ⟨some "user1", SettingsField.parsed (some FlagVal.jfalse)⟩,
          some "sk-ant-key", UpstreamOutcome.reply 200 ⟨none, "ok"⟩⟩).1.body =
        ResBody.errorMsg "AI Analytics not enabled"
          "Please enable AI Analytics in Settings → Analytics AI") ∧
    (aHandler ⟨"POST", some "https://quickserve.io", none, some "user1",
        BodyOutcome.ok (some ⟨some "rest1", some dA0, none, none, some [⟨"user", "Hello"⟩]⟩)⟩
        ⟨UserFetch.got ⟨some ["planpro"]⟩, some ⟨some "user1", SettingsField.malformed⟩,
          some "sk-ant-key", UpstreamOutcome.reply 200 ⟨none, "ok"⟩⟩).1.status = 500 :=
  c3_feature_flag_gate (some "https://quickserve.io") none "user1" "rest1"
    [⟨"user", "Hello"⟩] none none (some "pro") (some ["planpro"]) dA0
    (some FlagVal.jfalse) (some "sk-ant-key") (UpstreamOutcome.reply 200 ⟨none, "ok"⟩)
    (by decide) (by decide) (by decide) (by decide) (by decide) (by decide)

/-- C1 counterexample: with a valid request and the upstream replying 529,
the relayed status is 529 but the relayed body is the `{error, details}`
wrapper, not the upstream's body itself. -/
theorem c1_counterexample :
    (mHandler rM0 wM529).1.status = 529 ∧
    (mHandler rM0 wM529).1.body ≠ ResBody.upstreamData ⟨some "Overloaded", "errpayload"⟩ := by
  constructor <;> decide

/-- C1 (amended): whenever the upstream call is performed and replies with a
non-2xx status, the relayed response carries the upstream's status, and its
body is a JSON object with an `error` field (the upstream `error.message`,
or `Claude API request failed` when that is absent or empty) and a `details`
field embedding the upstream body — in both handler variants. -/
theorem c1_upstream_error_relay (rm : Request MsgBody) (wm : WorldM)
    (ra : Request AnBody) (wa : WorldA) (s : Nat) (d : UpstreamData)
    (hfail : ¬(200 ≤ s ∧ s < 300)) :
    (wm.upstream = UpstreamOutcome.reply s d → claudeCalls (mHandler rm wm).2 ≠ [] →
      (mHandler rm wm).1.status = s ∧
      (mHandler rm wm).1.body =
        ResBody.errorDetails (optStrOr d.errorMessage "Claude API request failed") d) ∧
    (wa.upstream = UpstreamOutcome.reply s d → claudeCalls (aHandler ra wa).2 ≠ [] →
      (aHandler ra wa).1.status = s ∧
      (aHandler ra wa).1.body =
        ResBody.errorDetails (optStrOr d.errorMessage "Claude API request failed") d) := by
  constructor
  · intro hup hcall
    rcases mHandler_shape rm wm with ⟨_, hnil⟩ | ⟨p, pre, heq, hpre⟩
    · exact absurd hnil hcall
    · rw [heq, hup, relayOutcome_reply_fail _ _ _ _ _ hfail]
      exact ⟨rfl, rfl⟩
  · intro hup hcall
    rcases aHandler_shape ra wa with ⟨_, hnil⟩ | ⟨ob, ad, pre, _, _, heq, hpre⟩
    · exact absurd hnil hcall
    · rw [heq, hup, relayOutcome_reply_fail _ _ _ _ _ hfail]
      exact ⟨rfl, rfl⟩

/-- C1 witness: concrete 529 upstream reply relayed with wrapped body. -/
theorem c1_upstream_error_relay_witness :
    (mHandler rM0 wM529).1.status = 529 ∧
    (mHandler rM0 wM529).1.body =
      ResBody.errorDetails "Overloaded" ⟨some "Overloaded", "errpayload"⟩ :=
  (c1_upstream_error_relay rM0 wM529 rA0 wA0 529 ⟨some "Overloaded", "errpayload"⟩
    (by decide)).1 (by decide) (by decide)

/-- C9: across both variants, the response carries no CORS headers exactly
when the upstream call was made and failed (threw, or replied non-2xx):
the upstream-failure relay and the outer catch pass no headers, while every
validation-failure response and the success response attach them. -/
theorem c9_error_paths_cors (rm : Request MsgBody) (wm : WorldM)
    (ra : Request AnBody) (wa : WorldA) :
    ((mHandler rm wm).1.cors = none ↔
      claudeCalls (mHandler rm wm).2 ≠ [] ∧ upstreamFailed wm.upstream = true) ∧
    ((aHandler ra wa).1.cors = none ↔
      claudeCalls (aHandler ra wa).2 ≠ [] ∧ upstreamFailed wa.upstream = true) := by
  constructor
  · rcases mHandler_shape rm wm with ⟨hc, ht⟩ | ⟨p, pre, heq, hpre⟩
    · rw [hc, ht]; simp
    · rw [heq, relayOutcome_calls, hpre]
      simp [relayOutcome_cors_none_iff]
  · rcases aHandler_shape ra wa with ⟨hc, ht⟩ | ⟨ob, ad, pre, hb, had, heq, hpre⟩
    · rw [hc, ht]; simp
    · rw [heq, relayOutcome_calls, hpre]
      simp [relayOutcome_cors_none_iff]

/-- C2 counterexample: a POST request whose origin `https://evil.example` is
not in the allow-list is not rejected: in an otherwise valid world it runs
to completion with status 200, performs the upstream call, and merely gets
the default `Access-Control-Allow-Origin` value. -/
theorem c2_counterexample :
    (mHandler rMEvil wM0).1.status = 200 ∧
    claudeCalls (mHandler rMEvil wM0).2 ≠ [] ∧
    ((mHandler rMEvil wM0).1.cors).map CorsHeaders.allowOrigin =
      some "https://quickserve.io" := by
  refine ⟨?_, ?_, ?_⟩ <;> decide

/-- C2 (amended): the declared origin (origin, else referer) never causes a
rejection — it affects only the attached `Access-Control-Allow-Origin`
header, in both variants; that header echoes the declared origin when the
origin starts with an allow-list entry and is the fixed default
`https://quickserve.io` when the origin is absent or unrecognized. -/
theorem c2_origin_policy (rm : Request MsgBody) (wm : WorldM)
    (ra : Request AnBody) (wa : WorldA) (o o₂ ref ref₂ : Option String) :
    (mHandler { rm with origin := o, referer := ref } wm =
      substCors (corsHeadersOf { rm with origin := o, referer := ref })
        (mHandler { rm with origin := o₂, referer := ref₂ } wm)) ∧
    (aHandler { ra with origin := o, referer := ref } wa =
      substCors (corsHeadersOf { ra with origin := o, referer := ref })
        (aHandler { ra with origin := o₂, referer := ref₂ } wa)) ∧
    (declaredOrigin rm = none →
      (corsHeadersOf rm).allowOrigin = "https://quickserve.io") ∧
    (∀ og, declaredOrigin rm = some og →
      (∀ a ∈ allowedOrigins, strStartsWith og a = false) →
      (corsHeadersOf rm).allowOrigin = "https://quickserve.io") ∧
    (∀ og a, declaredOrigin rm = some og → a ∈ allowedOrigins →
      strStartsWith og a = true → (corsHeadersOf rm).allowOrigin = og) := by
  refine ⟨?_, ?_, ?_, ?_, ?_⟩
  · exact mCore_substCors rm.method rm.userId rm.body wm
      (corsHeadersOf { rm with origin := o₂, referer := ref₂ })
      (corsHeadersOf { rm with origin := o, referer := ref })
  · exact aCore_substCors ra.method ra.userId ra.body wa
      (corsHeadersOf { ra with origin := o₂, referer := ref₂ })
      (corsHeadersOf { ra with origin := o, referer := ref })
  · intro h
    simp [corsHeadersOf, isAllowed, h, allowedOrigins]
  · intro og h hall
    have h1 := hall "https://quickserve.io" (by simp [allowedOrigins])
    have h2 := hall "http://localhost:5173" (by simp [allowedOrigins])
    have h3 := hall "http://localhost:3000" (by simp [allowedOrigins])
    simp [corsHeadersOf, isAllowed, allowedOrigins, h, h1, h2, h3]
  · intro og a h ha hsw
    have hall : isAllowed rm = true := by
      simp only [isAllowed, h, List.any_eq_true]
      exact ⟨a, ha, hsw⟩
    simp [corsHeadersOf, hall, h]

/-- C2 witness: the evil origin gets the default header; a request whose
referer extends an allow-list entry gets its declared origin echoed. -/
theorem c2_origin_policy_witness :
    (corsHeadersOf rMEvil).allowOrigin = "https://quickserve.io" ∧
    (corsHeadersOf rM0).allowOrigin = "https://quickserve.io" :=
  ⟨(c2_origin_policy rMEvil wM0 rA0 wA0 none none none none).2.2.2.1
      "https://evil.example" (by decide) (by decide),
    (c2_origin_policy rM0 wM0 rA0 wA0 none none none none).2.2.2.2
      "https://quickserve.io" "https://quickserve.io" (by decide) (by decide) (by decide)⟩

/-- C10: the upstream request body of the analytics variant depends only on
the inbound `analyticsData` (and not on caller-supplied `model`,
`max_tokens` or `messages` fields, which the handler ignores), and every
payload it sends has the fixed model `claude-sonnet-4-20250514`, the fixed
`max_tokens` 2000, and a single user message holding the server-rendered
prompt of the inbound `analyticsData`. -/
theorem c10_upstream_payload_fixed (r : Request AnBody) (w : WorldA) (b : AnBody)
    (mo₁ mo₂ : Option String) (mt₁ mt₂ : Option Nat) (ms₁ ms₂ : Option (List Message)) :
    (aHandler { r with body := BodyOutcome.ok (some { b with model := mo₁, max_tokens := mt₁, messages := ms₁ }) } w =
      aHandler { r with body := BodyOutcome.ok (some { b with model := mo₂, max_tokens := mt₂, messages := ms₂ }) } w) ∧
    (∀ p ∈ claudeCalls (aHandler r w).2,
      p.model = "claude-sonnet-4-20250514" ∧ p.max_tokens = 2000 ∧
      ∃ ob ad, r.body = BodyOutcome.ok ob ∧
        (ob.getD AnBody.empty).analyticsData = some ad ∧
        p.messages = [⟨"user", generateAnalyticsPrompt ad⟩]) := by
  constructor
  · rfl
  · intro p hp
    rcases aHandler_shape r w with ⟨_, hnil⟩ | ⟨ob, ad, pre, hb, had, heq, hpre⟩
    · rw [hnil] at hp
      cases hp
    · rw [heq, relayOutcome_calls, hpre] at hp
      simp only [List.nil_append, List.mem_singleton] at hp
      subst hp
      exact ⟨rfl, rfl, ob, ad, hb, had, rfl⟩

/-- C10 witness at a concrete valid analytics request. -/
theorem c10_upstream_payload_fixed_witness :
    (⟨"claude-sonnet-4-20250514", 2000,
        [⟨"user", generateAnalyticsPrompt dA0⟩]⟩ : ClaudePayload).model =
      "claude-sonnet-4-20250514" ∧
    (⟨"claude-sonnet-4-20250514", 2000,
        [⟨"user", generateAnalyticsPrompt dA0⟩]⟩ : ClaudePayload).max_tokens = 2000 := by
  have h := (c10_upstream_payload_fixed rA0 wA0 ⟨some "rest1", some dA0, none, none, none⟩
    none none none none none none).2
    ⟨"claude-sonnet-4-20250514", 2000, [⟨"user", generateAnalyticsPrompt dA0⟩]⟩
    (by rw [show claudeCalls (aHandler rA0 wA0).2 =
        [⟨"claude-sonnet-4-20250514", 2000, [⟨"user", generateAnalyticsPrompt dA0⟩]⟩] from rfl]
        exact List.mem_singleton_self _)
  exact ⟨h.1, h.2.1⟩

theorem jsSubstring_idem (c : String) :
    jsSubstring (jsSubstring c 200) 200 = jsSubstring c 200 := by
  simp [jsSubstring, List.take_take]

theorem fmtComment_trunc (i : Nat) (c : String) :
    fmtComment i (jsSubstring c 200) = fmtComment i c := by
  simp [fmtComment, jsSubstring_idem]

theorem mapIdx_fmtComment_trunc (l : List String) :
    (l.map fun s => jsSubstring s 200).mapIdx fmtComment = l.mapIdx fmtComment := by
  rw [List.mapIdx_eq_enum_map, List.mapIdx_eq_enum_map, List.enum_map, List.map_map]
  apply List.map_congr_left
  intro a _
  cases a with
  | mk i s => simp [Function.uncurry, Prod.map, fmtComment_trunc]

theorem commentsText_take (d : AnalyticsData) :
    commentsText { d with feedbackComments := d.feedbackComments.take 20 } = commentsText d := by
  have hcond : 0 < (d.feedbackComments.take 20).length ↔ 0 < d.feedbackComments.length := by
    simp [List.length_take, Nat.lt_min]
  simp only [commentsText, List.take_take, Nat.min_self, hcond]

theorem commentsText_trunc (d : AnalyticsData) :
    commentsText { d with feedbackComments := d.feedbackComments.map (fun s => jsSubstring s 200) } = commentsText d := by
  simp only [commentsText, List.length_map, ← List.map_take, mapIdx_fmtComment_trunc]

set_option maxRecDepth 8000 in
/-- C5: the rendered analytics prompt contains at most the first 10
product-sales entries (in input order) and at most the first 20 feedback
comments, each truncated to at most 200 characters, and renders its numeric
fields at fixed decimal precision: product revenue and session `avgRevenue`
at 2 places, product ratings and the top-seller rating at 1 place,
`averageRating` at 2 places, `avgDuration` at 0 places — stated as
invariance of the rendering under truncation and under replacing a numeric
field by any value with the same fixed-precision rendering. -/
theorem c5_prompt_caps_truncation_formatting (d : AnalyticsData) (v : ℚ)
    (t : TopSellerIssues) (i : Nat) (p : ProductSale) (c : String) :
    (generateAnalyticsPrompt { d with productSales := d.productSales.take 10 } =
      generateAnalyticsPrompt d) ∧
    (generateAnalyticsPrompt { d with feedbackComments := d.feedbackComments.take 20 } =
      generateAnalyticsPrompt d) ∧
    (generateAnalyticsPrompt { d with feedbackComments := d.feedbackComments.map (fun s => jsSubstring s 200) } = generateAnalyticsPrompt d) ∧
    ((jsSubstring c 200).length ≤ 200) ∧
    (jsToFixed (d.sessionMetrics.avgRevenue.getD 0) 2 = jsToFixed v 2 →
      generateAnalyticsPrompt { d with sessionMetrics := { d.sessionMetrics with avgRevenue := some v } } = generateAnalyticsPrompt d) ∧
    (jsToFixed (d.sessionMetrics.avgDuration.getD 0) 0 = jsToFixed v 0 →
      generateAnalyticsPrompt { d with sessionMetrics := { d.sessionMetrics with avgDuration := some v } } = generateAnalyticsPrompt d) ∧
    (jsToFixed (d.feedbackSummary.averageRating.getD 0) 2 = jsToFixed v 2 →
      generateAnalyticsPrompt { d with feedbackSummary := { d.feedbackSummary with averageRating := some v } } = generateAnalyticsPrompt d) ∧
    (d.topSellerIssues = some t → jsToFixed (t.rating.getD 0) 1 = jsToFixed v 1 →
      generateAnalyticsPrompt { d with topSellerIssues := some { t with rating := some v } } = generateAnalyticsPrompt d) ∧
    (jsToFixed (p.totalRevenue.getD 0) 2 = jsToFixed v 2 →
      fmtProduct i { p with totalRevenue := some v } = fmtProduct i p) ∧
    (numTruthy p.averageRating = numTruthy (some v) →
      jsToFixed (p.averageRating.getD 0) 1 = jsToFixed v 1 →
      fmtProduct i { p with averageRating := some v } = fmtProduct i p) := by
  refine ⟨?_, ?_, ?_, ?_, ?_, ?_, ?_, ?_, ?_, ?_⟩
  · have hp : productsText { d with productSales := d.productSales.take 10 } = productsText d := by
      simp [productsText, List.take_take]
    unfold generateAnalyticsPrompt
    rw [hp]
    rfl
  · unfold generateAnalyticsPrompt
    rw [commentsText_take]
    rfl
  · unfold generateAnalyticsPrompt
    rw [commentsText_trunc]
    rfl
  · have hlen : (jsSubstring c 200).length = (c.data.take 200).length := rfl
    rw [hlen, List.length_take]
    exact min_le_left _ _
  · intro h
    unfold generateAnalyticsPrompt
    rw [h]
    rfl
  · intro h
    unfold generateAnalyticsPrompt
    rw [h]
    rfl
  · intro h
    unfold generateAnalyticsPrompt
    rw [h]
    rfl
  · intro ht h
    have hi : issuesText { d with topSellerIssues := some { t with rating := some v } } =
        issuesText d := by
      simp [issuesText, ht, h]
    unfold generateAnalyticsPrompt
    rw [hi]
    rfl
  · intro h
    simp [fmtProduct, h]
  · intro hn h
    simp [fmtProduct, hn, h]

/-- C5 witness: rendering `dA0` is unchanged when `avgRevenue` 30.1 is
replaced by 30.104 (same 2-decimal rendering) and when a product revenue
123.45 is replaced by 123.454. -/
theorem c5_prompt_caps_truncation_formatting_witness :
    generateAnalyticsPrompt { dA0 with sessionMetrics := { dA0.sessionMetrics with avgRevenue := some (mkRat 30104 1000) } } =
      generateAnalyticsPrompt dA0 ∧
    fmtProduct 0 { (⟨"Burger", some 42, some (mkRat 12345 100), some (mkRat 47 10), some 12⟩ : ProductSale) with totalRevenue := some (mkRat 123454 1000) } =
      fmtProduct 0 ⟨"Burger", some 42, some (mkRat 12345 100), some (mkRat 47 10), some 12⟩ :=
  ⟨(c5_prompt_caps_truncation_formatting dA0 (mkRat 30104 1000) ⟨"", none⟩ 0
      ⟨"", none, none, none, none⟩ "").2.2.2.2.1 (by decide),
    (c5_prompt_caps_truncation_formatting dA0 (mkRat 123454 1000) ⟨"", none⟩ 0
      ⟨"Burger", some 42, some (mkRat 12345 100), some (mkRat 47 10), some 12⟩
      "").2.2.2.2.2.2.2.2.1 (by decide)⟩

end QuickServe
